import Mathlib

/-!
Shallow embedding of the anki-smart-deck repository (card generator,
AnkiConnect bridge clients, HTTP retry/session utilities), together with
proofs settling the frozen claims about it.  Python dictionaries are
modelled as insertion-ordered association lists, exceptions as `Except`
or `Option` results, and network calls as oracle functions supplied in
an environment record.
-/

namespace AnkiSmartDeck

/-- Minimal JSON value model for the bridge wire payloads. -/
inductive Json where
  | null : Json
  | str (s : String) : Json
  | num (n : Int) : Json
  | bool (b : Bool) : Json
  | arr (l : List Json) : Json
  | obj (l : List (String × Json)) : Json
  deriving Repr

/-- Python `dict.get k`: first binding of `k`, `none` when absent. -/
def jsonGet (o : List (String × Json)) (k : String) : Option Json :=
  (o.find? (fun p => p.1 == k)).map Prod.snd

/-- Python truthiness of a JSON value (`if result.get("error"):`). -/
def jsonTruthy : Json → Bool
  | .null => false
  | .str s => s != ""
  | .num n => n != 0
  | .bool b => b
  | .arr l => !l.isEmpty
  | .obj l => !l.isEmpty

/-- Keys of a JSON object, in order; `[]` on non-objects. -/
def objKeys : Json → List String
  | .obj l => l.map Prod.fst
  | _ => []

/-- One note as reported by the bridge `notesInfo` action: its id and the
map field-name ↦ field value (models `note["fields"][name]["value"]`). -/
structure NoteInfo where
  noteId : Int
  fields : List (String × String)
  deriving Repr, DecidableEq

/-- Embeds `note["fields"].get(name, {}).get("value", "")`. -/
def getFieldValue (note : NoteInfo) (name : String) : String :=
  (note.fields.lookup name).getD ""

/-- Character-level body of `str.replace` with the one-character pattern
`"` and replacement `\"`. -/
def escGo : List Char → List Char
  | [] => []
  | c :: rest => if c = '"' then '\\' :: '"' :: escGo rest else c :: escGo rest

/-- Embeds `word.replace('"', '\\"')` from `_find_existing_note`
(per-character expansion of the single-character pattern). -/
def escapeQuotes (word : String) : String :=
  String.mk (escGo word.toList)

/-- Embeds the query f-string of `_find_existing_note`:
`f'deck:"{deck}" "Word:{escaped_word}"'`. -/
def buildDedupQuery (deckName word : String) : String :=
  "deck:\"" ++ deckName ++ "\" \"Word:" ++ escapeQuotes word ++ "\""

/-- Embeds the `for note in notes_info` loop of `_find_existing_note`:
return the first note id whose "Word Form" field equals `wordForm`. -/
def findMatchLoop (wordForm : String) : List NoteInfo → Option Int
  | [] => none
  | note :: rest =>
      if getFieldValue note "Word Form" = wordForm then some note.noteId
      else findMatchLoop wordForm rest

/-- Embeds `CardGenerator._find_existing_note`.  The bridge calls
`find_notes` and `notes_info` are supplied as oracles `fn` and `ni`
(the source catches oracle exceptions and returns `None`; pure oracles
make that path vacuous here). -/
def findExistingNote (deckName word wordForm : String)
    (fn : String → List Int) (ni : List Int → List NoteInfo) : Option Int :=
  let query := buildDedupQuery deckName word
  let noteIds := fn query
  if noteIds = [] then none
  else findMatchLoop wordForm (ni noteIds)

/-- Embeds `CardGenerator._get_user_notes`: "User Notes" field value of
the first note reported for `[noteId]`, `""` when nothing is reported. -/
def getUserNotes (ni : List Int → List NoteInfo) (noteId : Int) : String :=
  match ni [noteId] with
  | [] => ""
  | note :: _ => getFieldValue note "User Notes"

/-- Embeds `CardGenerator._format_definitions`: number the `[en, cn]`
pairs from 1 and join each column with `<br>`; empty input yields
`("", "")`. -/
def formatDefinitions (definitions : List (String × String)) : String × String :=
  if definitions = [] then ("", "")
  else
    let enDefs := definitions.enum.map (fun p => toString (p.1 + 1) ++ ". " ++ p.2.1)
    let cnDefs := definitions.enum.map (fun p => toString (p.1 + 1) ++ ". " ++ p.2.2)
    (String.intercalate "<br>" enDefs, String.intercalate "<br>" cnDefs)

/-- Embeds `CardGenerator._format_synonyms`. -/
def formatSynonyms (synonyms : List String) : String :=
  if synonyms = [] then "" else String.intercalate ", " synonyms

/-- Embeds `CardGenerator._format_notes`. -/
def formatNotes (notes : List String) : String :=
  if notes = [] then ""
  else String.intercalate "<br>" (notes.map (fun note => "• " ++ note))

/-- An audio oracle: `text ↦ language_code ↦` result of
`_generate_audio` — `(stored_filename, anki_sound_tag)`, or `none` when
that helper caught a failure. -/
def AudioOracle : Type := String → String → Option (String × String)

/-- Fuel-indexed scan for `pyReplace`: replace each leftmost
non-overlapping occurrence of `pattern` (non-empty) by `repl`.  The
fuel is the length of the scanned list, so the `0` case is never hit
from `pyReplace`. -/
def replaceGo (pattern repl : List Char) : Nat → List Char → List Char
  | _, [] => []
  | 0, l => l
  | fuel + 1, c :: rest =>
      if pattern.isPrefixOf (c :: rest) then
        repl ++ replaceGo pattern repl (fuel - (pattern.length - 1))
          (List.drop (pattern.length - 1) rest)
      else c :: replaceGo pattern repl fuel rest

/-- Embeds Python `s.replace(pattern, repl)` (all leftmost
non-overlapping occurrences; an empty pattern inserts `repl` at every
character boundary, as CPython does). -/
def pyReplace (s pattern repl : String) : String :=
  if pattern.toList = [] then
    String.mk (repl.toList ++ s.toList.flatMap (fun c => c :: repl.toList))
  else String.mk (replaceGo pattern.toList repl.toList s.toList.length s.toList)

/-- Embeds the inner `for en, cn in example_pairs` of
`_format_examples`, threading the 1-based running example counter. -/
def formatPairsLoop (audio : AudioOracle) (phrase : String) (total : Nat) :
    List (String × String) → Nat → List String × Nat
  | [], current => ([], current)
  | (en, cn) :: rest, current =>
      let current' := current + 1
      let audioTag :=
        match audio en "en-US" with
        | some r => " " ++ r.2
        | none => ""
      let enFormatted := pyReplace en phrase ("<b>" ++ phrase ++ "</b>")
      let sep := if current' < total then ["<hr>"] else []
      let (more, finalCount) := formatPairsLoop audio phrase total rest current'
      (("• " ++ enFormatted ++ audioTag) :: ("&nbsp;&nbsp;" ++ cn) :: sep ++ more,
        finalCount)

/-- Embeds the outer `for phrase, example_pairs in examples.items()` of
`_format_examples`. -/
def formatGroupsLoop (audio : AudioOracle) (total : Nat) :
    List (String × List (String × String)) → Nat → List String
  | [], _ => []
  | (phrase, pairs) :: rest, current =>
      let (lines, current') := formatPairsLoop audio phrase total pairs current
      lines ++ formatGroupsLoop audio total rest current'

/-- Embeds `CardGenerator._format_examples` (the per-sentence TTS call is
the `audio` oracle; its failures are already `none` results). -/
def formatExamples (audio : AudioOracle)
    (examples : List (String × List (String × String))) : String :=
  if examples = [] then ""
  else
    let exampleCount := (examples.map (fun p => p.2.length)).sum
    String.intercalate "<br>" (formatGroupsLoop audio exampleCount examples 0)

/-- Embeds `char in "aeiouAEIOU"` from `_generate_syllabication`. -/
def isVowelChar (c : Char) : Bool := "aeiouAEIOU".toList.contains c

/-- Embeds the `for i, char in enumerate(syllabified)` loop of
`_generate_syllabication`: `n` is the length of the whole string, `i`
the current index, `prev` whether the previous character was a vowel;
the character at `i + 1` is read from the head of the remaining list. -/
def syllGo (n : Nat) : List Char → Nat → Bool → List Char
  | [], _, _ => []
  | c :: rest, i, prev =>
      let isV := isVowelChar c
      let nextIsConsonant :=
        match rest.head? with
        | some nc => !isVowelChar nc
        | none => false
      let needHyphen :=
        decide (0 < i) && !isV && prev && decide (i < n - 1) &&
          decide (i + 1 < n) && nextIsConsonant
      (if needHyphen then ['-'] else []) ++ c :: syllGo n rest (i + 1) isV

/-- Embeds `CardGenerator._generate_syllabication` (the `us_pron`
parameter is unused in the source as well). -/
def generateSyllabication (word usPron : String) : String :=
  let syllabified := word.toList.map Char.toLower
  String.mk (syllGo syllabified.length syllabified 0 false)

/-- Outcome of one `handler(req)` call inside `retry_middleware`:
success, a transient exception (`ClientError`, `ServerDisconnectedError`,
`asyncio.TimeoutError` — the tuple of the `except` clause), or any other
exception (not caught by that clause). -/
inductive HandlerOutcome (α ε : Type) where
  | ok (a : α) : HandlerOutcome α ε
  | transient (e : ε) : HandlerOutcome α ε
  | fatal (e : ε) : HandlerOutcome α ε
  deriving Repr, DecidableEq

/-- Observable outcome of `retry_middleware`: the returned response or
the propagated exception, with the number of handler calls made and the
list of back-off sleep durations (seconds), in order. -/
inductive RetryOutcome (α ε : Type) where
  | success (a : α) (calls : Nat) (sleeps : List Nat) : RetryOutcome α ε
  | transientFail (e : ε) (calls : Nat) (sleeps : List Nat) : RetryOutcome α ε
  | fatalFail (e : ε) (calls : Nat) (sleeps : List Nat) : RetryOutcome α ε
  | unreachableAssert : RetryOutcome α ε
  deriving Repr, DecidableEq

/-- Embeds the `for attempt in range(max_retries)` loop of
`retry_middleware`; `remaining` counts the loop iterations still to run
(the loop body at index `attempt` has `remaining = max_retries - attempt`,
so `attempt == max_retries - 1` is `remaining = 1`); the sleep before the
next attempt is `1 * (2 ** attempt)` seconds.  `unreachableAssert` is the
`assert False` after the loop. -/
def retryLoop (handler : Nat → HandlerOutcome α ε) :
    Nat → Nat → List Nat → RetryOutcome α ε
  | 0, _, _ => .unreachableAssert
  | remaining + 1, attempt, sleeps =>
      match handler attempt with
      | .ok a => .success a (attempt + 1) sleeps
      | .fatal e => .fatalFail e (attempt + 1) sleeps
      | .transient e =>
          if remaining = 0 then .transientFail e (attempt + 1) sleeps
          else retryLoop handler remaining (attempt + 1) (sleeps ++ [1 * 2 ^ attempt])

/-- Embeds `retry_middleware` (`httpcli.py`): `max_retries = 3`, the
handler's behaviour on each attempt given as an oracle. -/
def retryMiddleware (handler : Nat → HandlerOutcome α ε) : RetryOutcome α ε :=
  retryLoop handler 3 0 []

/-- The shared `aiohttp.ClientSession` singleton, reduced to an identity
and its `closed` flag. -/
structure Session where
  sessionId : Nat
  closed : Bool
  deriving Repr, DecidableEq

/-- The module state of `httpcli.py`: the `_session` global plus a
counter supplying fresh session identities. -/
structure SessionState where
  session : Option Session
  nextId : Nat
  deriving Repr, DecidableEq

/-- Message of the `RuntimeError` raised by `get_session` outside an
event loop (the spec's abstract `EnvironmentError`). -/
def noLoopErrorMsg : String :=
  "get_session() must be called within a running event loop"

/-- Embeds `get_session` (`httpcli.py`): `loopRunning` models whether
`asyncio.get_running_loop()` succeeds; a fresh non-closed session is
created when the global is `None` or closed, otherwise the existing
object is returned. -/
def get_session (loopRunning : Bool) (st : SessionState) :
    Except String (Session × SessionState) :=
  if !loopRunning then .error noLoopErrorMsg
  else
    match st.session with
    | some s =>
        if s.closed then
          let s' : Session := ⟨st.nextId, false⟩
          .ok (s', ⟨some s', st.nextId + 1⟩)
        else .ok (s, st)
    | none =>
        let s' : Session := ⟨st.nextId, false⟩
        .ok (s', ⟨some s', st.nextId + 1⟩)

/-- Embeds `close_session` (`httpcli.py`): close and clear the global
when it holds a non-closed session, otherwise leave the state unchanged. -/
def close_session (st : SessionState) : SessionState :=
  match st.session with
  | some s => if s.closed then st else ⟨none, st.nextId⟩
  | none => st

/-- Embeds the payload built by `anki_smart_deck`'s
`AnkiConnectClient._invoke`:
`{"action": action, "version": 6, "params": params or {}}` (both `None`
and an empty dict become `{}`). -/
def smartDeckPayload (action : String) (params : Option (List (String × Json))) : Json :=
  .obj [("action", .str action), ("version", .num 6),
    ("params", .obj (params.getD []))]

/-- Embeds the payload built by `ankinote`'s `AnkiConnectClient._invoke`:
`{"action": action, "version": 6}`, with `params` added only when it is
not `None`. -/
def ankinotePayload (action : String) (params : Option (List (String × Json))) : Json :=
  .obj ([("action", .str action), ("version", .num 6)] ++
    (match params with
     | some p => [("params", .obj p)]
     | none => []))

/-- Embeds the response handling of `anki_smart_deck`'s `_invoke`:
`if result.get("error"): raise RuntimeError(...)` then
`return result.get("result")` — a truthiness check, and `dict.get`
defaults for missing keys. -/
def smartDeckHandleResponse (resp : List (String × Json)) : Except Json Json :=
  let err := (jsonGet resp "error").getD .null
  if jsonTruthy err then .error err
  else .ok ((jsonGet resp "result").getD .null)

/-- The result of `anki_smart_deck`'s `_invoke` including its transport
behaviour: the first `session.post` may fail with a transient client
error, in which case the session is recreated and the POST re-issued
exactly once; the pair records how many POSTs were issued.  A transport
failure of the second POST propagates. -/
inductive InvokeError where
  | transport (e : String) : InvokeError
  | bridge (e : Json) : InvokeError
  deriving Repr

/-- Embeds `anki_smart_deck`'s `AnkiConnectClient._invoke`, with each
POST's transport outcome supplied as an oracle
(`.error` = `aiohttp.ClientError` / `ServerDisconnectedError`,
`.ok` = the parsed response JSON object). -/
def smartDeckInvoke (first second : Except String (List (String × Json))) :
    Nat × Except InvokeError Json :=
  match first with
  | .ok resp =>
      (1, match smartDeckHandleResponse resp with
          | .error e => .error (.bridge e)
          | .ok r => .ok r)
  | .error _ =>
      match second with
      | .ok resp =>
          (2, match smartDeckHandleResponse resp with
              | .error e => .error (.bridge e)
              | .ok r => .ok r)
      | .error e => (2, .error (.transport e))

/-- Embeds the response handling of `ankinote`'s `_invoke`:
`error = result["error"]` (a `KeyError`, modelled `none`, when absent),
`if error is not None: raise RuntimeError(...)`, then
`return result["result"]` (again a possible `KeyError`). -/
def ankinoteHandleResponse (resp : List (String × Json)) :
    Option (Except Json Json) :=
  match jsonGet resp "error" with
  | none => none
  | some err =>
      match err with
      | .null =>
          match jsonGet resp "result" with
          | none => none
          | some r => some (.ok r)
      | e => some (.error e)

/-- One word-sense record of the AI response (`card_data`), with the
keys read by `generate_card`; `Option` models a possibly missing key,
read via `card_data.get(key, default)`. -/
structure CardData where
  word : Option String := none
  word_form : Option String := none
  us_pron : Option String := none
  uk_pron : Option String := none
  frequency : Option String := none
  syllabication : Option String := none
  definitions : List (String × String) := []
  synonyms : List String := []
  examples : List (String × List (String × String)) := []
  notes : List String := []

/-- A note-writing bridge call issued by `generate_card`:
`add_note(deck, model, fields, tags)` or
`update_note_fields(note_id, fields)`. -/
inductive BridgeOp where
  | addNote (deck model : String) (fields : List (String × String))
      (tags : List String) : BridgeOp
  | updateNoteFields (noteId : Int) (fields : List (String × String)) : BridgeOp

/-- Oracles for every effect `generate_card` performs. -/
structure GenEnv where
  analyze : String → Except String (List CardData)
  findNotes : String → List Int
  notesInfo : List Int → List NoteInfo
  audio : AudioOracle
  imagesHtml : String → String
  updateResult : Int → List (String × String) → Except String Unit
  addNoteResult : List (String × String) → List String → Except String Int

/-- Python dict assignment `fields[k] = v` on an insertion-ordered dict:
replace the value in place when the key exists, append otherwise. -/
def setField (k v : String) : List (String × String) → List (String × String)
  | [] => [(k, v)]
  | (k', v') :: rest =>
      if k' = k then (k, v) :: rest else (k', v') :: setField k v rest

/-- Python `fields.pop(k, None)`: drop every binding of `k` (the dict
holds each key once, so at most one is dropped). -/
def removeField (k : String) (fields : List (String × String)) :
    List (String × String) :=
  fields.filter (fun p => p.1 ≠ k)

/-- The dedup decision of `generate_card` step 2: skipped under
`force_new`, otherwise `_find_existing_note`. -/
def dedupResult (env : GenEnv) (deck word wordForm : String)
    (forceNew : Bool) : Option Int :=
  if forceNew then none
  else findExistingNote deck word wordForm env.findNotes env.notesInfo

/-- The field map `generate_card` formats for one word-sense record
(steps 3–4 of the source: audio, definition/example/synonym/note
formatting, optional images, a blank "User Notes" slot). -/
def genFields (env : GenEnv) (word : String) (includeImages : Bool)
    (c : CardData) : List (String × String) :=
  let w := c.word.getD word
  let usAudio := match env.audio w "en-US" with
    | some r => r.2
    | none => ""
  let ukAudio := match env.audio w "en-GB" with
    | some r => r.2
    | none => ""
  let defPair := formatDefinitions c.definitions
  let syl := c.syllabication.getD ""
  let syllabication :=
    if syl = "" then generateSyllabication w (c.us_pron.getD "")
    else syl
  let imagesHtml := if includeImages then env.imagesHtml w else ""
  [("Word", w),
   ("US Pronunciation", c.us_pron.getD ""),
   ("UK Pronunciation", c.uk_pron.getD ""),
   ("US Audio", usAudio),
   ("UK Audio", ukAudio),
   ("Word Form", c.word_form.getD ""),
   ("Definition EN", defPair.1),
   ("Definition CN", defPair.2),
   ("Synonyms", formatSynonyms c.synonyms),
   ("Examples", formatExamples env.audio c.examples),
   ("Images", imagesHtml),
   ("Notes", formatNotes c.notes),
   ("User Notes", ""),
   ("Frequency", c.frequency.getD ""),
   ("Syllabication", syllabication)]

/-- The tag list `generate_card` prepares: caller tags, `ai-generated`,
then the CEFR frequency tag when non-empty. -/
def genTags (tags : Option (List String)) (c : CardData) : List String :=
  (tags.getD []) ++ ["ai-generated"] ++
    (if c.frequency.getD "" = "" then [] else [c.frequency.getD ""])

/-- Embeds `CardGenerator.generate_card` from the point where the AI
response list is in hand (the `card_data = ai_response[0]` line onward).
Returns the Python result (`(note_id, is_updated)` or the raised
error's message) together with the trace of note-writing bridge calls. -/
def generateCardCore (env : GenEnv) (deck model word : String)
    (tags : Option (List String)) (forceNew includeImages : Bool)
    (aiResponse : List CardData) :
    Except String (Int × Bool) × List BridgeOp :=
  match aiResponse with
  | [] => (.error ("Invalid AI response for word: " ++ word), [])
  | cardData :: _ =>
      let existing := dedupResult env deck (cardData.word.getD word)
        (cardData.word_form.getD "") forceNew
      let fields := genFields env word includeImages cardData
      let allTags := genTags tags cardData
      match existing with
      | some noteId =>
          let userNotes := getUserNotes env.notesInfo noteId
          let fields' :=
            if userNotes = "" then removeField "User Notes" fields
            else setField "User Notes" userNotes fields
          match env.updateResult noteId fields' with
          | .ok _ => (.ok (noteId, true), [.updateNoteFields noteId fields'])
          | .error e =>
              (.error ("Failed to update card in Anki: " ++ e),
                [.updateNoteFields noteId fields'])
      | none =>
          match env.addNoteResult fields allTags with
          | .ok noteId => (.ok (noteId, false), [.addNote deck model fields allTags])
          | .error e =>
              (.error ("Failed to add card to Anki: " ++ e),
                [.addNote deck model fields allTags])

/-- Embeds `CardGenerator.generate_card`: step 1 calls the AI service
(its exceptions propagate; an empty list raises
`ValueError(f"Invalid AI response for word: {word}")`), the rest is
`generateCardCore`. -/
def generateCard (env : GenEnv) (deck model word : String)
    (tags : Option (List String)) (forceNew includeImages : Bool) :
    Except String (Int × Bool) × List BridgeOp :=
  match env.analyze word with
  | .error e => (.error e, [])
  | .ok aiResponse =>
      generateCardCore env deck model word tags forceNew includeImages aiResponse

/-- Embeds the `updateNoteFields` wire params built by
`AnkiConnectClient.update_note_fields`:
`{"note": {"id": note_id, "fields": fields}}`. -/
def updateNoteFieldsParams (noteId : Int) (fields : List (String × String)) :
    List (String × Json) :=
  [("note", .obj [("id", .num noteId),
    ("fields", .obj (fields.map (fun p => (p.1, Json.str p.2))))])]

/-- Embeds the `addNote` wire params built by
`AnkiConnectClient.add_note`. -/
def addNoteParams (deck model : String) (fields : List (String × String))
    (tags : List String) : List (String × Json) :=
  [("note", .obj [("deckName", .str deck), ("modelName", .str model),
    ("fields", .obj (fields.map (fun p => (p.1, Json.str p.2)))),
    ("tags", .arr (tags.map Json.str)),
    ("options", .obj [("allowDuplicate", .bool false)])])]

/-- Keys of the `note` object inside a params object. -/
def noteObjKeys (params : List (String × Json)) : List String :=
  match jsonGet params "note" with
  | some (.obj l) => l.map Prod.fst
  | _ => []

/-- One search hit as consumed by `_search_and_store_images`:
`img_info.get("thumbnail", "")`. -/
structure ImgInfo where
  thumbnail : String
  deriving Repr, DecidableEq

/-- Outcome of `image_service.download_image(url)`: bytes, a logged
`None` (its own failure contract), or a raised exception. -/
inductive DownloadResult where
  | ok (data : List Nat) : DownloadResult
  | failNone : DownloadResult
  | exc (e : String) : DownloadResult
  deriving Repr, DecidableEq

/-- Oracles for the effects of `_search_and_store_images`:
`search` is `search_word_image` (raising modelled by `.error`),
`download` is `download_image`, `store` is `store_media_file`
(filename and data ↦ stored filename, or a raised bridge error), and
`uuid` is the n-th `shortuuid.uuid()` value. -/
structure ImgEnv where
  search : String → Except String (List ImgInfo)
  download : String → DownloadResult
  store : String → List Nat → Except String String
  uuid : Nat → String

/-- Embeds one iteration of the `for i, img_info in enumerate(...)` loop
body of `_search_and_store_images` at uuid-counter `u`: the produced
image tag, or `none` when that image was skipped (missing thumbnail,
failed or empty download, or a store failure — each caught in the
source and followed by `continue`). -/
def imageAttempt (env : ImgEnv) (word : String) (img : ImgInfo) (u : Nat) :
    Option String :=
  if img.thumbnail = "" then none
  else
    match env.download img.thumbnail with
    | .failNone => none
    | .exc _ => none
    | .ok data =>
        if data = [] then none
        else
          let filename := "img_" ++ word ++ "_" ++ env.uuid u ++ ".jpg"
          match env.store filename data with
          | .ok stored => some ("<img src=\"" ++ stored ++ "\">")
          | .error _ => none

/-- Number of `shortuuid.uuid()` calls one loop iteration makes (a uuid
is generated only once `if image_data:` held, i.e. the download
returned non-empty bytes). -/
def imageUuidCost (env : ImgEnv) (img : ImgInfo) : Nat :=
  if img.thumbnail = "" then 0
  else
    match env.download img.thumbnail with
    | .ok data => if data = [] then 0 else 1
    | .failNone => 0
    | .exc _ => 0

/-- Embeds the whole image loop of `_search_and_store_images`,
collecting tags in order; `u` is the uuid counter (the loop index `i`
is only printed in the source and is dropped here). -/
def imageLoop (env : ImgEnv) (word : String) : List ImgInfo → Nat → List String
  | [], _ => []
  | img :: rest, u =>
      match imageAttempt env word img u with
      | some tag => tag :: imageLoop env word rest (u + imageUuidCost env img)
      | none => imageLoop env word rest (u + imageUuidCost env img)

/-- The image tags `_search_and_store_images` collects for `word` with
`num_images = numImages` (the loop runs over `images[:num_images]`). -/
def imageTags (env : ImgEnv) (word : String) (numImages : Nat) : List String :=
  match env.search word with
  | .error _ => []
  | .ok images =>
      if images = [] then []
      else imageLoop env word (images.take numImages) 0

/-- Embeds `CardGenerator._search_and_store_images`: the outer
`try`/`except` returns `""` on a search failure, `""` when no images or
no tags, else the tags joined with a space. -/
def searchAndStoreImages (env : ImgEnv) (word : String) (numImages : Nat) :
    String :=
  match env.search word with
  | .error _ => ""
  | .ok images =>
      if images = [] then ""
      else
        let tags := imageLoop env word (images.take numImages) 0
        if tags = [] then "" else String.intercalate " " tags

/-- Python dict store `results[word] = v` on an insertion-ordered dict. -/
def dictInsert (d : List (String × α)) (k : String) (v : α) :
    List (String × α) :=
  if (d.map Prod.fst).contains k then setEntry d k v else d ++ [(k, v)]
where
  setEntry : List (String × α) → String → α → List (String × α)
    | [], _, _ => []
    | (k', v') :: rest, key, value =>
        if k' = key then (key, value) :: rest
        else (k', v') :: setEntry rest key value

/-- The entry `generate_cards_batch` records for one word: the
outcome of `await self.generate_card(word, ...)`, any raised exception
recorded as `(None, False)`. -/
def batchEntry (gen : String → Except String (Int × Bool)) (word : String) :
    Option Int × Bool :=
  match gen word with
  | .ok r => (some r.1, r.2)
  | .error _ => (none, false)

/-- One iteration of the `for i, word in enumerate(words, 1)` loop of
`generate_cards_batch`: `results[word] = ...`. -/
def batchStep (gen : String → Except String (Int × Bool))
    (results : List (String × (Option Int × Bool))) (word : String) :
    List (String × (Option Int × Bool)) :=
  dictInsert results word (batchEntry gen word)

/-- Embeds `CardGenerator.generate_cards_batch` over an oracle `gen`
for `generate_card`: fold the words in order into the ordered result
dict. -/
def generateCardsBatch (gen : String → Except String (Int × Bool))
    (words : List String) : List (String × (Option Int × Bool)) :=
  words.foldl (batchStep gen) []

/-- Lines numbered from `start`, as the spec words the definition
rendering ("numbered, paired English/translation lines"). -/
def numberedLines (start : Nat) : List String → List String
  | [] => []
  | s :: rest => (toString start ++ ". " ++ s) :: numberedLines (start + 1) rest

/-- Definition rendering as the spec states it: the English and the
translated definitions each numbered from 1 and joined with `<br>`. -/
def formatDefinitionsSpec (ds : List (String × String)) : String × String :=
  (String.intercalate "<br>" (numberedLines 1 (ds.map Prod.fst)),
   String.intercalate "<br>" (numberedLines 1 (ds.map Prod.snd)))

/-- Concrete word-sense record used by witnesses. -/
def cardEx : CardData :=
  { word := some "run", word_form := some "verb", us_pron := some "r1",
    uk_pron := some "r2", frequency := some "A1", syllabication := some "run",
    definitions := [("to move fast", "d1")], synonyms := ["jog"],
    examples := [("run", [("I run.", "e1")])], notes := ["n1"] }

/-- Concrete `find_notes` oracle: the dedup query for word `run` in
deck `D` matches note 5. -/
def fnEx : String → List Int :=
  fun q => if q = "deck:\"D\" \"Word:run\"" then [5] else []

/-- Concrete `notes_info` oracle: note 5 is a verb card carrying user
notes. -/
def niEx : List Int → List NoteInfo :=
  fun ids =>
    if ids = [5] then [⟨5, [("Word Form", "verb"), ("User Notes", "keep me")]⟩]
    else []

/-- Concrete generation environment used by witnesses. -/
def envEx : GenEnv :=
  { analyze := fun w => if w = "run" then .ok [cardEx] else .error "no analysis"
    findNotes := fnEx
    notesInfo := niEx
    audio := fun _ _ => none
    imagesHtml := fun _ => ""
    updateResult := fun _ _ => .ok ()
    addNoteResult := fun _ _ => .ok 99 }

/-- Handler that raises a transient error on the first two attempts and
then succeeds. -/
def handlerFailTwice : Nat → HandlerOutcome Nat String :=
  fun attempt => if attempt < 2 then .transient "boom" else .ok 7

/-- Handler that raises a transient error on every attempt. -/
def handlerAlwaysFail : Nat → HandlerOutcome Nat String :=
  fun _ => .transient "boom"

/-- Handler that raises a non-transient error immediately. -/
def handlerFatal : Nat → HandlerOutcome Nat String :=
  fun _ => .fatal "bad request"

/-- Concrete batch oracle: word `B` fails analysis, `A` and `C`
succeed. -/
def genEx : String → Except String (Int × Bool) :=
  fun w =>
    if w = "A" then .ok (1, false)
    else if w = "B" then .error "InvalidAnalysisError"
    else if w = "C" then .ok (2, true)
    else .error "unknown word"

/-- Concrete image environment: two hits, the first download raises,
the second succeeds and stores. -/
def imgEnvEx : ImgEnv :=
  { search := fun w => if w = "cat" then .ok [⟨"t1"⟩, ⟨"t2"⟩] else .ok []
    download := fun url =>
      if url = "t1" then .exc "403"
      else if url = "t2" then .ok [1, 2]
      else .failNone
    store := fun _ _ => .ok "stored.jpg"
    uuid := fun _ => "u0" }

theorem enumFrom_map_numbered (f : String × String → String) :
    ∀ (ds : List (String × String)) (k : Nat),
      (List.enumFrom k ds).map (fun p => toString (p.1 + 1) ++ ". " ++ f p.2) =
        numberedLines (k + 1) (ds.map f)
  | [], _ => rfl
  | d :: rest, k => by
      simp [List.enumFrom, numberedLines, enumFrom_map_numbered f rest (k + 1)]

/-- C8: definition formatting is deterministic on its input — two
applications to the same ordered list of definition pairs give
byte-identical strings — the empty list yields empty strings, and the
output is the spec's rendering: definitions numbered from 1 with paired
English/translation lines. -/
theorem claim_C8_format_definitions_deterministic
    (ds : List (String × String)) :
    formatDefinitions ds = formatDefinitions ds ∧
    formatDefinitions [] = ("", "") ∧
    formatDefinitions ds = formatDefinitionsSpec ds := by
  refine ⟨rfl, rfl, ?_⟩
  by_cases hds : ds = []
  · subst hds; rfl
  · simp only [formatDefinitions, formatDefinitionsSpec, if_neg hds, List.enum]
    rw [enumFrom_map_numbered (fun p => p.1), enumFrom_map_numbered (fun p => p.2)]

/-- C3: the retry middleware returns the handler's response after 0, 1
or 2 transient failures with exactly one back-off sleep per retry (1s
then 2s); on 3 consecutive transient failures it calls the handler
exactly 3 times, sleeps exactly twice and re-raises the 3rd attempt's
error unchanged; a non-transient error propagates without retry. -/
theorem claim_C3_retry_policy {α ε : Type} (handler : Nat → HandlerOutcome α ε)
    (a : α) (e0 e1 e2 : ε) :
    (handler 0 = .ok a → retryMiddleware handler = .success a 1 []) ∧
    (handler 0 = .transient e0 → handler 1 = .ok a →
      retryMiddleware handler = .success a 2 [1]) ∧
    (handler 0 = .transient e0 → handler 1 = .transient e1 → handler 2 = .ok a →
      retryMiddleware handler = .success a 3 [1, 2]) ∧
    (handler 0 = .transient e0 → handler 1 = .transient e1 →
      handler 2 = .transient e2 →
      retryMiddleware handler = .transientFail e2 3 [1, 2]) ∧
    (handler 0 = .fatal e0 → retryMiddleware handler = .fatalFail e0 1 []) := by
  refine ⟨?_, ?_, ?_, ?_, ?_⟩ <;> intros <;>
    simp_all [retryMiddleware, retryLoop]

/-- Witness for C3 at concrete handlers. -/
theorem claim_C3_retry_policy_witness :
    retryMiddleware handlerFailTwice = .success 7 3 [1, 2] ∧
    retryMiddleware handlerAlwaysFail = .transientFail "boom" 3 [1, 2] ∧
    retryMiddleware handlerFatal = .fatalFail "bad request" 1 [] :=
  ⟨(claim_C3_retry_policy handlerFailTwice 7 "boom" "boom" "x").2.2.1 rfl rfl rfl,
   (claim_C3_retry_policy handlerAlwaysFail 7 "boom" "boom" "boom").2.2.2.1
     rfl rfl rfl,
   (claim_C3_retry_policy handlerFatal 7 "bad request" "x" "x").2.2.2.2 rfl⟩

/-- C7: `get_session` fails with the no-running-loop error when no
cooperative scheduler is active; when one is active it returns the
process-wide session, and a second acquisition without an intervening
close returns the identical (non-closed) session object and leaves the
state unchanged. -/
theorem claim_C7_session_singleton (st : SessionState) (s1 : Session)
    (st1 : SessionState) (h : get_session true st = .ok (s1, st1)) :
    get_session false st = .error noLoopErrorMsg ∧
    s1.closed = false ∧
    get_session true st1 = .ok (s1, st1) := by
  refine ⟨rfl, ?_⟩
  cases hs : st.session with
  | none =>
      simp only [get_session, hs, Bool.not_true, Bool.false_eq_true,
        if_false] at h
      obtain ⟨h1, h2⟩ := Prod.mk.injEq .. ▸ Except.ok.injEq .. ▸ h
      subst h1; subst h2
      exact ⟨rfl, rfl⟩
  | some s =>
      by_cases hc : s.closed
      · simp only [get_session, hs, hc, Bool.not_true, Bool.false_eq_true,
          if_false, if_true] at h
        obtain ⟨h1, h2⟩ := Prod.mk.injEq .. ▸ Except.ok.injEq .. ▸ h
        subst h1; subst h2
        exact ⟨rfl, rfl⟩
      · simp only [get_session, hs, hc, Bool.not_true, Bool.false_eq_true,
          if_false] at h
        obtain ⟨h1, h2⟩ := Prod.mk.injEq .. ▸ Except.ok.injEq .. ▸ h
        subst h1; subst h2
        constructor
        · simpa using hc
        · simp [get_session, hs, hc]

/-- Witness for C7 at the empty module state. -/
theorem claim_C7_session_singleton_witness :
    get_session false (⟨none, 0⟩ : SessionState) = .error noLoopErrorMsg ∧
    (⟨0, false⟩ : Session).closed = false ∧
    get_session true (⟨some ⟨0, false⟩, 1⟩ : SessionState) =
      .ok (⟨0, false⟩, ⟨some ⟨0, false⟩, 1⟩) :=
  claim_C7_session_singleton ⟨none, 0⟩ ⟨0, false⟩ ⟨some ⟨0, false⟩, 1⟩ rfl

theorem escGo_eq_flatMap : ∀ l : List Char,
    escGo l = l.flatMap (fun c => if c = '"' then ['\\', '"'] else [c])
  | [] => rfl
  | c :: rest => by
      by_cases h : c = '"' <;> simp [escGo, h, escGo_eq_flatMap rest]

theorem findMatchLoop_eq_find (wf : String) : ∀ l : List NoteInfo,
    findMatchLoop wf l =
      (l.find? (fun n => getFieldValue n "Word Form" == wf)).map NoteInfo.noteId
  | [] => rfl
  | n :: rest => by
      by_cases h : getFieldValue n "Word Form" = wf <;>
        simp [findMatchLoop, List.find?_cons, h, findMatchLoop_eq_find wf rest]

/-- C1: the dedup lookup builds the query
`deck:"<deck>" "Word:<escaped word>"` in which each double quote of the
word is backslash-escaped exactly once, and among the notes fetched for
that query returns the id of the first one whose "Word Form" field
equals the analysed tag — `none`, not an error, when no fetched note
matches (`hni` says the bridge reports nothing for an empty id list). -/
theorem claim_C1_dedup_lookup (deck word wordForm : String)
    (fn : String → List Int) (ni : List Int → List NoteInfo)
    (hni : ni [] = []) :
    buildDedupQuery deck word =
      "deck:\"" ++ deck ++ "\" \"Word:" ++ escapeQuotes word ++ "\"" ∧
    (escapeQuotes word).toList =
      word.toList.flatMap (fun c => if c = '"' then ['\\', '"'] else [c]) ∧
    findExistingNote deck word wordForm fn ni =
      ((ni (fn (buildDedupQuery deck word))).find?
          (fun n => getFieldValue n "Word Form" == wordForm)).map
        NoteInfo.noteId := by
  refine ⟨rfl, ?_, ?_⟩
  · simpa [escapeQuotes] using escGo_eq_flatMap word.toList
  · unfold findExistingNote
    by_cases h : fn (buildDedupQuery deck word) = []
    · simp [h, hni]
    · simp [h, findMatchLoop_eq_find]

/-- Witness for C1: a word with a double quote, and a concrete bridge
on which the lookup returns note 5. -/
theorem claim_C1_dedup_lookup_witness :
    niEx [] = [] ∧
    findExistingNote "D" "run" "verb" fnEx niEx = some 5 ∧
    escapeQuotes "a\"b" = "a\\\"b" ∧
    (buildDedupQuery "D" "run" =
        "deck:\"" ++ "D" ++ "\" \"Word:" ++ escapeQuotes "run" ++ "\"" ∧
      (escapeQuotes "run").toList =
        "run".toList.flatMap (fun c => if c = '"' then ['\\', '"'] else [c]) ∧
      findExistingNote "D" "run" "verb" fnEx niEx =
        ((niEx (fnEx (buildDedupQuery "D" "run"))).find?
            (fun n => getFieldValue n "Word Form" == "verb")).map
          NoteInfo.noteId) :=
  ⟨by decide, by decide, by decide,
    claim_C1_dedup_lookup "D" "run" "verb" fnEx niEx (by decide)⟩

theorem lookup_setField_self : ∀ (l : List (String × String)) (k v : String),
    (setField k v l).lookup k = some v
  | [], k, v => by simp [setField, List.lookup]
  | (k', v') :: rest, k, v => by
      by_cases h : k' = k
      · subst h; simp [setField, List.lookup]
      · have h' : (k == k') = false := by simp [Ne.symm h]
        simp [setField, h, List.lookup, h', lookup_setField_self rest k v]

theorem not_mem_keys_removeField (l : List (String × String)) (k : String) :
    k ∉ (removeField k l).map Prod.fst := by
  intro hmem
  obtain ⟨p, hp, hpk⟩ := List.mem_map.mp hmem
  have h2 := (List.mem_filter.mp hp).2
  simp only [decide_eq_true_eq] at h2
  exact h2 hpk

/-- C2: on the update path `generate_card` sends exactly one
`update_note_fields` call; its field map carries the pre-existing
"User Notes" value when that value is non-empty, and omits the
"User Notes" key entirely when it is empty. -/
theorem claim_C2_user_notes_preserved (env : GenEnv) (deck model word : String)
    (tags : Option (List String)) (includeImages : Bool) (nid : Int)
    (c : CardData) (rest : List CardData)
    (hresp : env.analyze word = .ok (c :: rest))
    (hfound : findExistingNote deck (c.word.getD word) (c.word_form.getD "")
        env.findNotes env.notesInfo = some nid) :
    ∃ F, (generateCard env deck model word tags false includeImages).2 =
        [.updateNoteFields nid F] ∧
      (getUserNotes env.notesInfo nid ≠ "" →
        F.lookup "User Notes" = some (getUserNotes env.notesInfo nid)) ∧
      (getUserNotes env.notesInfo nid = "" →
        "User Notes" ∉ F.map Prod.fst) := by
  refine ⟨if getUserNotes env.notesInfo nid = ""
      then removeField "User Notes" (genFields env word includeImages c)
      else setField "User Notes" (getUserNotes env.notesInfo nid)
        (genFields env word includeImages c), ?_, ?_, ?_⟩
  · simp only [generateCard, hresp, generateCardCore, dedupResult,
      Bool.false_eq_true, if_false, hfound]
    split <;> rfl
  · intro hne
    rw [if_neg hne]
    exact lookup_setField_self _ _ _
  · intro he
    rw [if_pos he]
    exact not_mem_keys_removeField _ _

/-- Witness for C2: a concrete environment on which the dedup finds
note 5, whose stored "User Notes" value is non-empty. -/
theorem claim_C2_user_notes_preserved_witness :
    envEx.analyze "run" = .ok [cardEx] ∧
    findExistingNote "D" (cardEx.word.getD "run") (cardEx.word_form.getD "")
      envEx.findNotes envEx.notesInfo = some 5 ∧
    ∃ F, (generateCard envEx "D" "M" "run" none false false).2 =
        [.updateNoteFields 5 F] ∧
      (getUserNotes envEx.notesInfo 5 ≠ "" →
        F.lookup "User Notes" = some (getUserNotes envEx.notesInfo 5)) ∧
      (getUserNotes envEx.notesInfo 5 = "" →
        "User Notes" ∉ F.map Prod.fst) :=
  ⟨rfl, by decide,
    claim_C2_user_notes_preserved envEx "D" "M" "run" none false 5 cardEx []
      rfl (by decide)⟩

/-- C9: card generation uses only the first record of the AI response —
the remaining word senses are discarded — and one invocation issues at
most one note-writing bridge call. -/
theorem claim_C9_first_record_only (env : GenEnv) (deck model word : String)
    (tags : Option (List String)) (forceNew includeImages : Bool)
    (c : CardData) (rest rest' : List CardData) :
    generateCardCore env deck model word tags forceNew includeImages (c :: rest) =
      generateCardCore env deck model word tags forceNew includeImages
        (c :: rest') ∧
    (generateCard env deck model word tags forceNew includeImages).2.length ≤ 1 := by
  constructor
  · rfl
  · unfold generateCard
    cases env.analyze word with
    | error e => simp
    | ok resp =>
        cases resp with
        | nil => simp [generateCardCore]
        | cons c0 r0 =>
            simp only [generateCardCore]
            split <;> split <;> simp

/-- C10: on the update path `generate_card` sends only the note id and
the field map — the wire `updateNoteFields` note object has exactly the
keys `id` and `fields`, no tags — while the prepared tag list travels
only in `addNote` calls, which occur only when the dedup found no
existing note. -/
theorem claim_C10_tags_only_on_create (env : GenEnv) (deck model word : String)
    (tags : Option (List String)) (forceNew includeImages : Bool) :
    (generateCard env deck model word tags forceNew includeImages).2 = [] ∨
    (∃ nid F,
      (generateCard env deck model word tags forceNew includeImages).2 =
        [.updateNoteFields nid F] ∧
      noteObjKeys (updateNoteFieldsParams nid F) = ["id", "fields"] ∧
      ∃ c rest, env.analyze word = .ok (c :: rest) ∧
        dedupResult env deck (c.word.getD word) (c.word_form.getD "")
          forceNew = some nid) ∨
    (∃ F tg,
      (generateCard env deck model word tags forceNew includeImages).2 =
        [.addNote deck model F tg] ∧
      noteObjKeys (addNoteParams deck model F tg) =
        ["deckName", "modelName", "fields", "tags", "options"] ∧
      ∃ c rest, env.analyze word = .ok (c :: rest) ∧
        dedupResult env deck (c.word.getD word) (c.word_form.getD "")
          forceNew = none) := by
  cases hresp : env.analyze word with
  | error e => left; simp [generateCard, hresp]
  | ok resp =>
      cases resp with
      | nil => left; simp [generateCard, hresp, generateCardCore]
      | cons c rest =>
          cases hd : dedupResult env deck (c.word.getD word)
              (c.word_form.getD "") forceNew with
          | some nid =>
              right; left
              refine ⟨nid,
                if getUserNotes env.notesInfo nid = ""
                then removeField "User Notes" (genFields env word includeImages c)
                else setField "User Notes" (getUserNotes env.notesInfo nid)
                  (genFields env word includeImages c),
                ?_, rfl, c, rest, rfl, hd⟩
              simp only [generateCard, hresp, generateCardCore, hd]
              split <;> rfl
          | none =>
              right; right
              refine ⟨genFields env word includeImages c, genTags tags c,
                ?_, rfl, c, rest, rfl, hd⟩
              simp only [generateCard, hresp, generateCardCore, hd]
              split <;> rfl

theorem smartDeckHandleResponse_spec (resp : List (String × Json)) :
    smartDeckHandleResponse resp =
      if jsonTruthy ((jsonGet resp "error").getD .null)
      then .error ((jsonGet resp "error").getD .null)
      else .ok ((jsonGet resp "result").getD .null) := rfl

/-- C5 counterexample: a response whose error field is the non-null
empty string is treated as success by the `anki_smart_deck` client (its
check is truthiness, not non-nullness), and the `ankinote` payload for
a parameterless action (`modelNames`) carries no `params` object. -/
theorem claim_C5_counterexample :
    jsonGet [("error", Json.str ""), ("result", Json.num 42)] "error" =
      some (Json.str "") ∧
    Json.str "" ≠ Json.null ∧
    smartDeckHandleResponse [("error", Json.str ""), ("result", Json.num 42)] =
      .ok (Json.num 42) ∧
    objKeys (ankinotePayload "modelNames" none) = ["action", "version"] := by
  refine ⟨rfl, ?_, rfl, rfl⟩
  intro h
  exact Json.noConfusion h

/-- C5 amended: each operation issues one POST carrying the action name
— the `params` object is always present in the `anki_smart_deck`
payload and present exactly when parameters are given in the `ankinote`
payload — and the `anki_smart_deck` client re-issues the POST exactly
once when the first attempt fails in transport; the operation fails
with a bridge error carrying the reported message iff the response's
error field is truthy (non-null and non-empty) for the
`anki_smart_deck` client, or present and non-null for the `ankinote`
client; otherwise the result field is returned. -/
theorem claim_C5_invoke_amended (action : String)
    (params : Option (List (String × Json))) (resp : List (String × Json))
    (e : String) :
    objKeys (smartDeckPayload action params) = ["action", "version", "params"] ∧
    objKeys (ankinotePayload action params) =
      "action" :: "version" ::
        (match params with
         | some _ => ["params"]
         | none => []) ∧
    (smartDeckInvoke (.ok resp) (.ok resp)).1 = 1 ∧
    (smartDeckInvoke (.error e) (.ok resp)).1 = 2 ∧
    ((∃ err, (smartDeckInvoke (.ok resp) (.ok resp)).2 = .error (.bridge err)) ↔
      jsonTruthy ((jsonGet resp "error").getD .null) = true) ∧
    (jsonTruthy ((jsonGet resp "error").getD .null) = false →
      (smartDeckInvoke (.ok resp) (.ok resp)).2 =
        .ok ((jsonGet resp "result").getD .null)) ∧
    ((∃ err, ankinoteHandleResponse resp = some (.error err)) ↔
      (∃ err, jsonGet resp "error" = some err ∧ err ≠ Json.null)) ∧
    (∀ r, jsonGet resp "error" = some Json.null →
      jsonGet resp "result" = some r →
      ankinoteHandleResponse resp = some (.ok r)) := by
  refine ⟨?_, ?_, rfl, rfl, ?_, ?_, ?_, ?_⟩
  · cases params <;> rfl
  · cases params <;> rfl
  · rw [show (smartDeckInvoke (.ok resp) (.ok resp)).2 =
        (match smartDeckHandleResponse resp with
         | .error er => Except.error (InvokeError.bridge er)
         | .ok r => Except.ok r) from rfl, smartDeckHandleResponse_spec]
    cases h : jsonTruthy ((jsonGet resp "error").getD .null) <;> simp [h]
  · intro hf
    rw [show (smartDeckInvoke (.ok resp) (.ok resp)).2 =
        (match smartDeckHandleResponse resp with
         | .error er => Except.error (InvokeError.bridge er)
         | .ok r => Except.ok r) from rfl, smartDeckHandleResponse_spec, hf]
    rfl
  · cases herr : jsonGet resp "error" with
    | none => simp [ankinoteHandleResponse, herr]
    | some err =>
        cases err with
        | null =>
            cases hres : jsonGet resp "result" <;>
              simp [ankinoteHandleResponse, herr, hres]
        | str s => simp [ankinoteHandleResponse, herr]
        | num n => simp [ankinoteHandleResponse, herr]
        | bool b => simp [ankinoteHandleResponse, herr]
        | arr l => simp [ankinoteHandleResponse, herr]
        | obj l => simp [ankinoteHandleResponse, herr]
  · intro r herr hres
    simp [ankinoteHandleResponse, herr, hres]

/-- Witness for the amended C5 at a concrete response. -/
theorem claim_C5_invoke_amended_witness :
    (smartDeckInvoke (.ok [("error", Json.null), ("result", Json.num 7)])
      (.ok [("error", Json.null), ("result", Json.num 7)])).1 = 1 ∧
    objKeys (smartDeckPayload "addNote" (some [])) =
      ["action", "version", "params"] :=
  ⟨(claim_C5_invoke_amended "addNote" (some [])
      [("error", Json.null), ("result", Json.num 7)] "t").2.2.1,
   (claim_C5_invoke_amended "addNote" (some [])
      [("error", Json.null), ("result", Json.num 7)] "t").1⟩

theorem imageLoop_pair (env : ImgEnv) (word : String) (i1 i2 : ImgInfo)
    (u : Nat) :
    imageLoop env word [i1, i2] u =
      (imageAttempt env word i1 u).toList ++
        (imageAttempt env word i2 (u + imageUuidCost env i1)).toList := by
  cases h1 : imageAttempt env word i1 u <;>
    cases h2 : imageAttempt env word i2 (u + imageUuidCost env i1) <;>
      simp [imageLoop, h1, h2]

theorem imageAttempt_some_shape (env : ImgEnv) (word : String) (img : ImgInfo)
    (u : Nat) (t : String) (h : imageAttempt env word img u = some t) :
    ∃ stored, t = "<img src=\"" ++ stored ++ "\">" := by
  unfold imageAttempt at h
  by_cases hth : img.thumbnail = ""
  · simp [hth] at h
  · rw [if_neg hth] at h
    cases hdl : env.download img.thumbnail with
    | failNone => rw [hdl] at h; cases h
    | exc e => rw [hdl] at h; cases h
    | ok data =>
        rw [hdl] at h
        by_cases hdata : data = []
        · simp [hdata] at h
        · cases hst : env.store ("img_" ++ word ++ "_" ++ env.uuid u ++ ".jpg")
              data with
          | error e => simp [hdata, hst] at h
          | ok stored =>
              simp only [if_neg hdata, hst, Option.some.injEq] at h
              exact ⟨stored, h.symm⟩

/-- C6: when two images are attempted and exactly one of the two
download/store attempts fails, the failure is caught, only that image
is skipped, and the resulting "Images" value is exactly one `<img>`
tag — generation is not aborted. -/
theorem claim_C6_image_failure_isolation (env : ImgEnv) (word : String)
    (i1 i2 : ImgInfo)
    (hsearch : env.search word = .ok [i1, i2])
    (hone : (imageAttempt env word i1 0).isSome ≠
      (imageAttempt env word i2 (imageUuidCost env i1)).isSome) :
    ∃ t, imageTags env word 2 = [t] ∧
      searchAndStoreImages env word 2 = t ∧
      ∃ stored, t = "<img src=\"" ++ stored ++ "\">" := by
  have hl := imageLoop_pair env word i1 i2 0
  rw [Nat.zero_add] at hl
  cases h1 : imageAttempt env word i1 0 with
  | some t1 =>
      cases h2 : imageAttempt env word i2 (imageUuidCost env i1) with
      | some t2 => rw [h1, h2] at hone; simp at hone
      | none =>
          refine ⟨t1, ?_, ?_, imageAttempt_some_shape env word i1 0 t1 h1⟩
          · simp [imageTags, hsearch, hl, h1, h2]
          · simp [searchAndStoreImages, hsearch, hl, h1, h2,
              String.intercalate, String.intercalate.go]
  | none =>
      cases h2 : imageAttempt env word i2 (imageUuidCost env i1) with
      | none => rw [h1, h2] at hone; simp at hone
      | some t2 =>
          refine ⟨t2, ?_, ?_,
            imageAttempt_some_shape env word i2 (imageUuidCost env i1) t2 h2⟩
          · simp [imageTags, hsearch, hl, h1, h2]
          · simp [searchAndStoreImages, hsearch, hl, h1, h2,
              String.intercalate, String.intercalate.go]

/-- Witness for C6: a concrete environment whose first download raises
and whose second succeeds. -/
theorem claim_C6_image_failure_isolation_witness :
    ∃ t, imageTags imgEnvEx "cat" 2 = [t] ∧
      searchAndStoreImages imgEnvEx "cat" 2 = t ∧
      ∃ stored, t = "<img src=\"" ++ stored ++ "\">" :=
  claim_C6_image_failure_isolation imgEnvEx "cat" ⟨"t1"⟩ ⟨"t2"⟩ rfl (by decide)

theorem lookup_eq_none_of_not_mem_keys {α : Type} (k : String) :
    ∀ l : List (String × α), k ∉ l.map Prod.fst → l.lookup k = none
  | [], _ => rfl
  | (k', v') :: rest, h => by
      simp only [List.map_cons, List.mem_cons, not_or] at h
      have hkk : (k == k') = false := by simp [h.1]
      simp [List.lookup, hkk, lookup_eq_none_of_not_mem_keys k rest h.2]

theorem lookup_append_of_none {α : Type} (k : String) :
    ∀ l1 l2 : List (String × α), l1.lookup k = none →
      (l1 ++ l2).lookup k = l2.lookup k
  | [], l2, _ => rfl
  | (k', v') :: rest, l2, h => by
      cases hkk : (k == k') with
      | true => simp [List.lookup, hkk] at h
      | false =>
          simp only [List.lookup, hkk] at h
          simp only [List.cons_append, List.lookup, hkk]
          exact lookup_append_of_none k rest l2 h

theorem lookup_append_single_ne {α : Type} (k k' : String) (v : α)
    (h : k ≠ k') :
    ∀ d : List (String × α), (d ++ [(k', v)]).lookup k = d.lookup k
  | [] => by
      have hkk : (k == k') = false := by simp [h]
      simp [List.lookup, hkk]
  | (k0, v0) :: rest => by
      cases hkk : (k == k0) <;>
        simp only [List.cons_append, List.lookup, hkk, List.append_eq,
          lookup_append_single_ne k k' v h rest]

theorem lookup_setEntry_self {α : Type} (k : String) (v : α) :
    ∀ l : List (String × α), k ∈ l.map Prod.fst →
      (List.lookup k (dictInsert.setEntry l k v)) = some v
  | [], h => by simp at h
  | (k', v') :: rest, h => by
      by_cases hk : k' = k
      · subst hk; simp [dictInsert.setEntry, List.lookup]
      · have hkk : (k == k') = false := by simp [Ne.symm hk]
        simp only [List.map_cons, List.mem_cons] at h
        rcases h with h | h
        · exact absurd h.symm hk
        · simp [dictInsert.setEntry, hk, List.lookup, hkk,
            lookup_setEntry_self k v rest h]

theorem lookup_setEntry_ne {α : Type} (k k' : String) (v : α) (h : k ≠ k') :
    ∀ l : List (String × α),
      (List.lookup k (dictInsert.setEntry l k' v)) = l.lookup k
  | [] => rfl
  | (k0, v0) :: rest => by
      by_cases hk : k0 = k'
      · subst hk
        have hkk : (k == k0) = false := by simp [h]
        simp [dictInsert.setEntry, List.lookup, hkk]
      · simp [dictInsert.setEntry, hk, List.lookup,
          lookup_setEntry_ne k k' v h rest]

theorem lookup_dictInsert_self (d : List (String × (Option Int × Bool)))
    (k : String) (v : Option Int × Bool) :
    (dictInsert d k v).lookup k = some v := by
  unfold dictInsert
  by_cases hc : (d.map Prod.fst).contains k = true
  · rw [if_pos hc]
    exact lookup_setEntry_self k v d (by simpa using hc)
  · rw [if_neg hc]
    rw [lookup_append_of_none k d _
      (lookup_eq_none_of_not_mem_keys k d (by simpa using hc))]
    simp [List.lookup]

theorem lookup_dictInsert_ne (d : List (String × (Option Int × Bool)))
    (k k' : String) (v : Option Int × Bool) (h : k ≠ k') :
    (dictInsert d k' v).lookup k = d.lookup k := by
  unfold dictInsert
  by_cases hc : (d.map Prod.fst).contains k' = true
  · rw [if_pos hc]
    exact lookup_setEntry_ne k k' v h d
  · rw [if_neg hc]
    exact lookup_append_single_ne k k' v h d

theorem lookup_batch_foldl_of_not_mem
    (gen : String → Except String (Int × Bool)) (w : String) :
    ∀ (ws : List String) (acc : List (String × (Option Int × Bool))),
      w ∉ ws → (ws.foldl (batchStep gen) acc).lookup w = acc.lookup w
  | [], _, _ => rfl
  | k :: rest, acc, h => by
      simp only [List.mem_cons, not_or] at h
      rw [List.foldl_cons,
        lookup_batch_foldl_of_not_mem gen w rest _ h.2]
      unfold batchStep
      exact lookup_dictInsert_ne acc w k _ h.1

theorem lookup_batch_foldl_agree
    (gen : String → Except String (Int × Bool)) (b : String) :
    ∀ (ws : List String) (acc1 acc2 : List (String × (Option Int × Bool))),
      (∀ w, w ≠ b → acc1.lookup w = acc2.lookup w) →
      ∀ w, w ≠ b → (ws.foldl (batchStep gen) acc1).lookup w =
        (ws.foldl (batchStep gen) acc2).lookup w
  | [], acc1, acc2, h, w, hw => h w hw
  | k :: rest, acc1, acc2, h, w, hw => by
      rw [List.foldl_cons, List.foldl_cons]
      refine lookup_batch_foldl_agree gen b rest _ _ (fun w' hw' => ?_) w hw
      unfold batchStep
      by_cases hwk : w' = k
      · subst hwk
        rw [lookup_dictInsert_self, lookup_dictInsert_self]
      · rw [lookup_dictInsert_ne acc1 w' k _ hwk,
          lookup_dictInsert_ne acc2 w' k _ hwk]
        exact h w' hw'

theorem isSome_batch_foldl_preserved
    (gen : String → Except String (Int × Bool)) (w : String) :
    ∀ (ws : List String) (acc : List (String × (Option Int × Bool))),
      (acc.lookup w).isSome →
      ((ws.foldl (batchStep gen) acc).lookup w).isSome
  | [], _, h => h
  | k :: rest, acc, h => by
      rw [List.foldl_cons]
      refine isSome_batch_foldl_preserved gen w rest _ ?_
      unfold batchStep
      by_cases hwk : w = k
      · subst hwk; rw [lookup_dictInsert_self]; rfl
      · rw [lookup_dictInsert_ne acc w k _ hwk]; exact h

theorem isSome_batch_foldl_of_mem
    (gen : String → Except String (Int × Bool)) (w : String) :
    ∀ (ws : List String) (acc : List (String × (Option Int × Bool))),
      w ∈ ws → ((ws.foldl (batchStep gen) acc).lookup w).isSome
  | k :: rest, acc, h => by
      rw [List.foldl_cons]
      rcases List.mem_cons.mp h with h | h
      · subst h
        exact isSome_batch_foldl_preserved gen w rest _
          (by unfold batchStep; rw [lookup_dictInsert_self]; rfl)
      · exact isSome_batch_foldl_of_mem gen w rest _ h

theorem keys_batch_foldl (gen : String → Except String (Int × Bool)) :
    ∀ (ws : List String) (acc : List (String × (Option Int × Bool))),
      ws.Nodup → (∀ w ∈ ws, w ∉ acc.map Prod.fst) →
      (ws.foldl (batchStep gen) acc).map Prod.fst = acc.map Prod.fst ++ ws
  | [], acc, _, _ => by simp
  | k :: rest, acc, hnd, hdisj => by
      rw [List.foldl_cons]
      have hk : k ∉ acc.map Prod.fst := hdisj k (List.mem_cons_self k rest)
      have hstep : batchStep gen acc k = acc ++ [(k, batchEntry gen k)] := by
        unfold batchStep dictInsert
        rw [if_neg (by simpa using hk)]
      rw [hstep, keys_batch_foldl gen rest _ (List.Nodup.of_cons hnd) ?_]
      · simp
      · intro w hw
        simp only [List.map_append, List.mem_append]
        rintro (hmem | hmem)
        · exact hdisj w (List.mem_cons_of_mem k hw) hmem
        · simp only [List.map_cons, List.map_nil, List.mem_singleton] at hmem
          subst hmem
          exact (List.nodup_cons.mp hnd).1 hw

/-- C4: the batch processes its words in list order; a word whose
generation raises is recorded as `(None, False)` without stopping the
rest, every input word has an entry in the result mapping, and the
entries of the other words are the same as if the failing word had been
absent. -/
theorem claim_C4_batch_isolation (gen : String → Except String (Int × Bool))
    (pre post : List String) (b : String) (e : String)
    (hfail : gen b = .error e) (hpost : b ∉ post) :
    (generateCardsBatch gen (pre ++ b :: post)).lookup b =
      some (none, false) ∧
    (∀ w, w ≠ b →
      (generateCardsBatch gen (pre ++ b :: post)).lookup w =
        (generateCardsBatch gen (pre ++ post)).lookup w) ∧
    (∀ w ∈ pre ++ b :: post,
      ((generateCardsBatch gen (pre ++ b :: post)).lookup w).isSome) ∧
    ((pre ++ b :: post).Nodup →
      (generateCardsBatch gen (pre ++ b :: post)).map Prod.fst =
        pre ++ b :: post) := by
  refine ⟨?_, ?_, ?_, ?_⟩
  · unfold generateCardsBatch
    rw [List.foldl_append, List.foldl_cons,
      lookup_batch_foldl_of_not_mem gen b post _ hpost]
    unfold batchStep
    rw [lookup_dictInsert_self]
    unfold batchEntry
    rw [hfail]
  · intro w hw
    unfold generateCardsBatch
    rw [List.foldl_append, List.foldl_append, List.foldl_cons]
    refine lookup_batch_foldl_agree gen b post _ _ (fun w' hw' => ?_) w hw
    unfold batchStep
    exact lookup_dictInsert_ne _ w' b _ hw'
  · intro w hw
    exact isSome_batch_foldl_of_mem gen w _ _ hw
  · intro hnd
    unfold generateCardsBatch
    rw [keys_batch_foldl gen _ _ hnd (by simp)]
    rfl

/-- Witness for C4: the batch `[A, B, C]` where `B` fails analysis. -/
theorem claim_C4_batch_isolation_witness :
    genEx "B" = .error "InvalidAnalysisError" ∧
    ("B" : String) ∉ (["C"] : List String) ∧
    generateCardsBatch genEx ["A", "B", "C"] =
      [("A", (some 1, false)), ("B", (none, false)), ("C", (some 2, true))] ∧
    ((generateCardsBatch genEx ["A", "B", "C"]).lookup "B" =
        some (none, false) ∧
      (∀ w, w ≠ "B" →
        (generateCardsBatch genEx ["A", "B", "C"]).lookup w =
          (generateCardsBatch genEx ["A", "C"]).lookup w) ∧
      (∀ w ∈ ["A", "B", "C"],
        ((generateCardsBatch genEx ["A", "B", "C"]).lookup w).isSome) ∧
      ((["A", "B", "C"] : List String).Nodup →
        (generateCardsBatch genEx ["A", "B", "C"]).map Prod.fst =
          ["A", "B", "C"])) :=
  ⟨rfl, by decide, by decide,
    claim_C4_batch_isolation genEx ["A"] ["C"] "B" "InvalidAnalysisError"
      rfl (by decide)⟩

end AnkiSmartDeck
